import Mathlib

/-!
Shallow embedding of the rdap-lookup route handlers.

Sources embedded here:
  - the bootstrap-registry route (loadBootstrap, getTld, getRdapUrl,
    extractRegistrar, extractIanaId, the GET handler and its inline
    normalization), called the A variant below;
  - the hardcoded Verisign route in src/routes/api/rdap.ts (same helpers,
    getRdapUrl restricted to com/net, nameservers normalized to bare
    names), called the B variant below.

External platform capabilities are modelled as parameters:
  - the HTTP transport (fetch) is an oracle from a request to an outcome;
  - Date/toLocaleDateString (formatDate) is a formatter parameter fmt;
  - performance.now timing is a queryTime parameter.

JavaScript truthiness on optional strings (null, undefined and the empty
string are falsy) is made explicit via jsOrOpt/jsOrNull.
-/

/-- JS `a || b` on optional strings: undefined/null and the empty string
are falsy, any other string is truthy. -/
def jsOrOpt (a b : Option String) : Option String :=
  match a with
  | some s => if s = "" then b else some s
  | none => b

/-- JS `a || null` on an optional string. -/
def jsOrNull (a : Option String) : Option String :=
  jsOrOpt a none

/-! ## JS string primitives

Modelled structurally over the underlying character lists so that every
definition evaluates inside the kernel; ASCII coverage matches every
string the handlers manipulate. -/

/-- JS toLowerCase on one character (ASCII range). -/
def charToLower (c : Char) : Char :=
  if 65 ≤ c.toNat ∧ c.toNat ≤ 90 then Char.ofNat (c.toNat + 32) else c

/-- JS String.prototype.toLowerCase. -/
def strToLower (s : String) : String :=
  ⟨s.data.map charToLower⟩

/-- A whitespace character as JS trim sees it (ASCII range: space, tab,
newline, carriage return, vertical tab, form feed). -/
def charIsSpace (c : Char) : Bool :=
  c = ' ' || c = '\t' || c = '\n' || c = '\r' || c.toNat = 11 || c.toNat = 12

/-- JS String.prototype.trim: strip whitespace from both ends. -/
def strTrim (s : String) : String :=
  ⟨((s.data.dropWhile charIsSpace).reverse.dropWhile charIsSpace).reverse⟩

/-- JS String.prototype.split(".") over the character list: dot-separated
chunks, empty chunks preserved, the empty string giving one empty chunk. -/
def splitOnDot : List Char → List (List Char)
  | [] => [[]]
  | c :: cs =>
    if c = '.' then [] :: splitOnDot cs
    else
      match splitOnDot cs with
      | [] => [[c]]
      | p :: ps => (c :: p) :: ps

/-! ## Bootstrap registry (loadBootstrap) -/

/-- One entry of the bootstrap snapshot services array: a list of TLD
labels and a list of RDAP base URLs. -/
structure Service where
  tlds : List String
  endpoints : List String
deriving DecidableEq, Repr

/-- JS String.prototype.startsWith, modelled structurally over the
underlying character lists. -/
def strStartsWith (s pre : String) : Bool :=
  pre.data.isPrefixOf s.data

/-- Per snapshot entry: `endpoints.find((e) => e.startsWith("https://")) || endpoints[0]`.
The result is undefined (none) only when the endpoint list is empty,
since a found candidate starts with https and hence is a non-empty,
truthy string. -/
def chooseEndpoint (endpoints : List String) : Option String :=
  jsOrOpt (endpoints.find? (fun e => strStartsWith e "https://")) endpoints.head?

/-- Inner loop of loadBootstrap: `for (const tld of tlds) map.set(tld.toLowerCase(), endpoint)`.
The map is modelled as a lookup function; a set overwrites. -/
def setAll (ep : Option String) (tlds : List String)
    (m : String → Option (Option String)) : String → Option (Option String) :=
  tlds.foldl (fun m tld => fun k => if k = strToLower tld then some ep else m k) m

/-- loadBootstrap without the process-global memo cell: builds the
TLD-to-endpoint map from the snapshot services in document order.
The outer Option is Map.get missing-key undefined; the inner Option is a
stored undefined endpoint (possible only for an entry with no endpoints). -/
def loadBootstrap (services : List Service) : String → Option (Option String) :=
  services.foldl (fun m svc => setAll (chooseEndpoint svc.endpoints) svc.tlds m)
    (fun _ => none)

/-- getTld: lowercase, split on dots, null when fewer than two labels,
else the final label. -/
def getTld (domain : String) : Option String :=
  let parts := splitOnDot (strToLower domain).data
  if parts.length < 2 then none else parts.getLast?.map (fun cs => String.mk cs)

/-- getRdapUrl of the bootstrap route: resolve the TLD, look it up, treat
a missing or falsy endpoint as unsupported, and build `endpoint + "domain/" + domain`.
Returns the (url, endpoint) pair. -/
def getRdapUrl (services : List Service) (domain : String) :
    Option (String × String) :=
  match getTld domain with
  | none => none
  | some tld =>
    match loadBootstrap services tld with
    | some (some e) =>
      if e = "" then none else some (e ++ "domain/" ++ domain, e)
    | _ => none

/-- getRdapUrl of the Verisign route: only com and net are supported. -/
def getRdapUrlB (domain : String) : Option String :=
  match getTld domain with
  | some tld =>
    if tld = "com" ∨ tld = "net" then
      some ("https://rdap.verisign.com/" ++ tld ++ "/v1/domain/" ++ domain)
    else none
  | none => none

/-! ## Domain validation

The regex (on the already lowercased string) is
a label `[a-z0-9]([a-z0-9-]*[a-z0-9])?` followed by one or more
dot-label groups: at least two dot-separated labels, each non-empty,
starting and ending with a lowercase alphanumeric and containing only
lowercase alphanumerics and hyphens in between. -/

/-- A character matched by the regex class [a-z0-9]. -/
def isAlnum (c : Char) : Bool :=
  (decide (97 ≤ c.toNat) && decide (c.toNat ≤ 122)) ||
  (decide (48 ≤ c.toNat) && decide (c.toNat ≤ 57))

/-- A character matched by the regex class [a-z0-9-]. -/
def isLabelChar (c : Char) : Bool :=
  isAlnum c || c = '-'

/-- Tail of a label after its first character: empty, or interior
label characters followed by a final alphanumeric. -/
def labelTail : List Char → Bool
  | [] => true
  | [c] => isAlnum c
  | c :: cs => isLabelChar c && labelTail cs

/-- One label: a leading alphanumeric then a valid tail. -/
def validLabel : List Char → Bool
  | [] => false
  | c :: cs => isAlnum c && labelTail cs

/-- The whole domain regex: at least two dot-separated valid labels. -/
def validDomain (s : String) : Bool :=
  let parts := splitOnDot s.data
  decide (2 ≤ parts.length) && parts.all validLabel

/-! ## RDAP raw data model

One structure family serves both routes: the TypeScript interfaces are
structural and erased at runtime, the Verisign route simply reads fewer
fields (its RdapNameserver declares no ipAddresses but the runtime value
is whatever JSON arrived). -/

/-- An entry of the entities publicIds array. -/
structure PublicId where
  type : String
  identifier : String
deriving DecidableEq, Repr

/-- Fourth component of a vCard entry: a single string or a list. -/
inductive VcardValue where
  | str (s : String)
  | strs (l : List String)
deriving DecidableEq, Repr

/-- One vCard entry [name, parameters, valueType, value]; the code reads
only components 0 and 3. -/
structure VcardEntry where
  name : String
  params : List (String × String) := []
  valueType : String := "text"
  value : VcardValue
deriving DecidableEq, Repr

/-- An RDAP entity. vcardArray is [version, entry list]. -/
structure RdapEntity where
  roles : Option (List String) := none
  publicIds : Option (List PublicId) := none
  vcardArray : Option (String × List VcardEntry) := none
deriving DecidableEq, Repr

/-- An RDAP event. -/
structure RdapEvent where
  eventAction : String
  eventDate : String
deriving DecidableEq, Repr

/-- The optional ipAddresses object of a nameserver. -/
structure IpAddresses where
  v4 : Option (List String) := none
  v6 : Option (List String) := none
deriving DecidableEq, Repr

/-- A raw RDAP nameserver entry. -/
structure RdapNameserver where
  ldhName : String
  objectClassName : String := "nameserver"
  ipAddresses : Option IpAddresses := none
deriving DecidableEq, Repr

/-- A DNSSEC DS record, passed through verbatim. -/
structure DsRecord where
  keyTag : Int
  algorithm : Int
  digestType : Int
  digest : String
deriving DecidableEq, Repr

/-- The optional secureDNS object. -/
structure SecureDns where
  delegationSigned : Option Bool := none
  dsData : Option (List DsRecord) := none
deriving DecidableEq, Repr

/-- A link object; never read by either handler but part of the raw shape. -/
structure RdapLink where
  rel : String
  href : String
  type : Option String := none
deriving DecidableEq, Repr

/-- The decoded upstream RDAP response body. -/
structure RdapResponse where
  ldhName : String
  handle : Option String := none
  status : Option (List String) := none
  events : Option (List RdapEvent) := none
  nameservers : Option (List RdapNameserver) := none
  entities : Option (List RdapEntity) := none
  secureDNS : Option SecureDns := none
  links : Option (List RdapLink) := none
deriving DecidableEq, Repr

/-! ## Field extraction helpers (shared verbatim by both routes) -/

/-- JS test `e.roles?.includes("registrar")` as a Bool. -/
def hasRegistrarRole (e : RdapEntity) : Bool :=
  (e.roles.getD []).contains "registrar"

/-- extractRegistrar: first entity with the registrar role, its vCard
entry list, the first entry named fn, and its value only when that value
is a single string. -/
def extractRegistrar (entities : Option (List RdapEntity)) : Option String :=
  match entities with
  | none => none
  | some es =>
    match es.find? hasRegistrarRole with
    | none => none
    | some registrarEntity =>
      match registrarEntity.vcardArray with
      | none => none
      | some vcardArray =>
        match vcardArray.2.find? (fun entry => entry.name = "fn") with
        | some fnEntry =>
          match fnEntry.value with
          | .str s => some s
          | .strs _ => none
        | none => none

/-- extractIanaId: same first registrar entity, its publicIds, the first
identifier typed exactly "IANA Registrar ID", then `ianaId?.identifier || null`
(so an empty identifier string is falsy and degrades to null). -/
def extractIanaId (entities : Option (List RdapEntity)) : Option String :=
  match entities with
  | none => none
  | some es =>
    match es.find? hasRegistrarRole with
    | none => none
    | some registrarEntity =>
      match registrarEntity.publicIds with
      | none => none
      | some ids =>
        jsOrNull ((ids.find? (fun id => id.type = "IANA Registrar ID")).map
          (fun id => id.identifier))

/-! ## Normalization -/

/-- The four canonical event date slots, all null initially. -/
structure EventSlots where
  registration : Option String := none
  expiration : Option String := none
  lastChanged : Option String := none
  lastUpdateOfRdapDatabase : Option String := none
deriving DecidableEq, Repr

/-- One iteration of the event extraction loop: exact string switch on
eventAction, the matched slot overwritten with the formatted date, any
other action ignored. -/
def applyEvent (fmt : String → String) (s : EventSlots) (e : RdapEvent) : EventSlots :=
  if e.eventAction = "registration" then
    { s with registration := some (fmt e.eventDate) }
  else if e.eventAction = "expiration" then
    { s with expiration := some (fmt e.eventDate) }
  else if e.eventAction = "last changed" then
    { s with lastChanged := some (fmt e.eventDate) }
  else if e.eventAction = "last update of RDAP database" then
    { s with lastUpdateOfRdapDatabase := some (fmt e.eventDate) }
  else s

/-- The whole event extraction loop over the raw event list. -/
def extractEvents (fmt : String → String) (events : List RdapEvent) : EventSlots :=
  events.foldl (applyEvent fmt) {}

/-- A normalized nameserver entry of the bootstrap route:
`{ name: ns.ldhName, ipv4: ns.ipAddresses?.v4 || [], ipv6: ns.ipAddresses?.v6 || [] }`. -/
structure NsEntry where
  name : String
  ipv4 : List String
  ipv6 : List String
deriving DecidableEq, Repr

/-- The normalized dnssec object. -/
structure Dnssec where
  delegationSigned : Bool
  dsData : List DsRecord
deriving DecidableEq, Repr

/-- The success payload of the bootstrap route. -/
structure RdapResultA where
  domain : String
  handle : Option String
  status : List String
  queryTime : Nat
  rdapServer : String
  events : EventSlots
  nameservers : List NsEntry
  registrar : Option String
  ianaId : Option String
  dnssec : Dnssec
  rawResponse : RdapResponse
deriving DecidableEq, Repr

/-- The success payload of the Verisign route: no rdapServer field and
nameservers reduced to their bare names. -/
structure RdapResultB where
  domain : String
  handle : Option String
  status : List String
  queryTime : Nat
  events : EventSlots
  nameservers : List String
  registrar : Option String
  ianaId : Option String
  dnssec : Dnssec
  rawResponse : RdapResponse
deriving DecidableEq, Repr

/-- Result construction of the bootstrap route (the object literal plus
the event loop). fmt stands in for formatDate. -/
def normalizeA (fmt : String → String) (endpoint : String) (queryTime : Nat)
    (data : RdapResponse) : RdapResultA :=
  { domain := data.ldhName
    handle := jsOrNull data.handle
    status := data.status.getD []
    queryTime := queryTime
    rdapServer := endpoint
    events := extractEvents fmt (data.events.getD [])
    nameservers := (data.nameservers.getD []).map (fun ns =>
      { name := ns.ldhName
        ipv4 := (ns.ipAddresses.bind IpAddresses.v4).getD []
        ipv6 := (ns.ipAddresses.bind IpAddresses.v6).getD [] })
    registrar := extractRegistrar data.entities
    ianaId := extractIanaId data.entities
    dnssec :=
      { delegationSigned := (data.secureDNS.bind SecureDns.delegationSigned).getD false
        dsData := (data.secureDNS.bind SecureDns.dsData).getD [] }
    rawResponse := data }

/-- Result construction of the Verisign route:
`nameservers: data.nameservers?.map((ns) => ns.ldhName) || []` and no
rdapServer; everything else identical to the bootstrap route. -/
def normalizeB (fmt : String → String) (queryTime : Nat)
    (data : RdapResponse) : RdapResultB :=
  { domain := data.ldhName
    handle := jsOrNull data.handle
    status := data.status.getD []
    queryTime := queryTime
    events := extractEvents fmt (data.events.getD [])
    nameservers := (data.nameservers.getD []).map RdapNameserver.ldhName
    registrar := extractRegistrar data.entities
    ianaId := extractIanaId data.entities
    dnssec :=
      { delegationSigned := (data.secureDNS.bind SecureDns.delegationSigned).getD false
        dsData := (data.secureDNS.bind SecureDns.dsData).getD [] }
    rawResponse := data }

/-! ## HTTP exchange model and the GET handlers -/

/-- Outcome of reading the 2xx response body with response.json():
either the decoded structure or a thrown SyntaxError message. -/
inductive BodyOutcome where
  | parsed (data : RdapResponse)
  | parseError (message : String)
deriving DecidableEq, Repr

/-- Outcome of the awaited fetch: a rejection (network, DNS, TLS or
timeout failure) carrying the thrown Error message, or an HTTP response
with a status and a body. -/
inductive FetchOutcome where
  | fetchError (message : String)
  | response (status : Nat) (body : BodyOutcome)
deriving DecidableEq, Repr

/-- The outbound GET request the handler issues. -/
structure GetRequest where
  url : String
  accept : String
deriving DecidableEq, Repr

/-- A JSON response body produced by a handler, generic in the success
payload shape: the 400 rejections carry only an error string, the
post-fetch failures add queryTime, success carries the payload. -/
inductive JsonBody (α : Type) where
  | errorOnly (error : String)
  | errorTimed (error : String) (queryTime : Nat)
  | ok (result : α)
deriving DecidableEq, Repr

/-- A handler response: HTTP status (Response.json defaults to 200, the
three preflight rejections pass status 400 explicitly) plus JSON body. -/
structure HttpResponse (α : Type) where
  httpStatus : Nat
  body : JsonBody α
deriving DecidableEq, Repr

/-- JS response.ok: status in the range 200 to 299. -/
def responseOk (status : Nat) : Bool :=
  decide (200 ≤ status) && decide (status ≤ 299)

/-- The try block body and catch clause of the bootstrap route, given the
fetch outcome: 404 first, then any other non-ok status, then the body
parse; a rejection of fetch or of response.json() lands in the one catch
clause, which reports the thrown message with queryTime. -/
def classifyA (fmt : String → String) (domain endpoint : String)
    (queryTime : Nat) (outcome : FetchOutcome) : JsonBody RdapResultA :=
  match outcome with
  | .fetchError msg => .errorTimed msg queryTime
  | .response status body =>
    if status = 404 then
      .errorTimed ("Domain \"" ++ domain ++ "\" not found in RDAP registry") queryTime
    else if !responseOk status then
      .errorTimed ("RDAP lookup failed with status " ++ toString status) queryTime
    else
      match body with
      | .parseError msg => .errorTimed msg queryTime
      | .parsed data => .ok (normalizeA fmt endpoint queryTime data)

/-- Same classification for the Verisign route (identical text, no
endpoint and the B-shaped payload). -/
def classifyB (fmt : String → String) (domain : String)
    (queryTime : Nat) (outcome : FetchOutcome) : JsonBody RdapResultB :=
  match outcome with
  | .fetchError msg => .errorTimed msg queryTime
  | .response status body =>
    if status = 404 then
      .errorTimed ("Domain \"" ++ domain ++ "\" not found in RDAP registry") queryTime
    else if !responseOk status then
      .errorTimed ("RDAP lookup failed with status " ++ toString status) queryTime
    else
      match body with
      | .parseError msg => .errorTimed msg queryTime
      | .parsed data => .ok (normalizeB fmt queryTime data)

/-- The unsupported-TLD message of the bootstrap route; getTld cannot be
null here since the domain passed the regex, but the JS template would
print null in that case. -/
def unsupportedMsgA (domain : String) : String :=
  "TLD \"." ++ (getTld domain).getD "null" ++
    "\" is not supported. No RDAP endpoint found in IANA bootstrap registry."

/-- The unsupported-TLD message of the Verisign route. -/
def unsupportedMsgB (domain : String) : String :=
  "TLD \"." ++ (getTld domain).getD "null" ++
    "\" is not supported. Only .com and .net domains are supported via Verisign RDAP."

/-- The GET handler of the bootstrap route. The fetch transport is an
oracle from request to outcome and the elapsed measurement is a
parameter; the returned list records every outbound request made. -/
def handlerA (fmt : String → String) (services : List Service)
    (domainParam : Option String) (oracle : GetRequest → FetchOutcome)
    (queryTime : Nat) : HttpResponse RdapResultA × List GetRequest :=
  let domain := strToLower (strTrim (domainParam.getD ""))
  if domain = "" then
    (⟨400, .errorOnly "Domain parameter is required"⟩, [])
  else if !validDomain domain then
    (⟨400, .errorOnly "Invalid domain format"⟩, [])
  else
    match getRdapUrl services domain with
    | none => (⟨400, .errorOnly (unsupportedMsgA domain)⟩, [])
    | some (rdapUrl, rdapEndpoint) =>
      let req : GetRequest := ⟨rdapUrl, "application/rdap+json"⟩
      (⟨200, classifyA fmt domain rdapEndpoint queryTime (oracle req)⟩, [req])

/-- The GET handler of the Verisign route. -/
def handlerB (fmt : String → String) (domainParam : Option String)
    (oracle : GetRequest → FetchOutcome) (queryTime : Nat) :
    HttpResponse RdapResultB × List GetRequest :=
  let domain := strToLower (strTrim (domainParam.getD ""))
  if domain = "" then
    (⟨400, .errorOnly "Domain parameter is required"⟩, [])
  else if !validDomain domain then
    (⟨400, .errorOnly "Invalid domain format"⟩, [])
  else
    match getRdapUrlB domain with
    | none => (⟨400, .errorOnly (unsupportedMsgB domain)⟩, [])
    | some rdapUrl =>
      let req : GetRequest := ⟨rdapUrl, "application/rdap+json"⟩
      (⟨200, classifyB fmt domain queryTime (oracle req)⟩, [req])

/-- The registrar-name rule of the claim, restricted to one entity: the
first vCard entry tagged fn, its value only when it is a single string.
Stated separately so the code's extractor can be compared against it. -/
def claimFnOf (ent : RdapEntity) : Option String :=
  match ent.vcardArray with
  | none => none
  | some vcardArray =>
    match vcardArray.2.find? (fun entry => entry.name = "fn") with
    | some fnEntry =>
      match fnEntry.value with
      | .str s => some s
      | .strs _ => none
    | none => none

/-- The IANA-ID rule exactly as the claim words it, restricted to one
entity: the value of the first public identifier typed exactly
"IANA Registrar ID", absent otherwise. Note no empty-string guard. -/
def claimIanaIdOf (ent : RdapEntity) : Option String :=
  match ent.publicIds with
  | none => none
  | some ids =>
    (ids.find? (fun id => id.type = "IANA Registrar ID")).map PublicId.identifier

/-- The normalized fields shared between the two routes (everything
except queryTime, rdapServer and the retained raw object), generic in
the per-route nameserver entry shape. -/
structure Shared (ν : Type) where
  domain : String
  handle : Option String
  status : List String
  events : EventSlots
  nameservers : List ν
  registrar : Option String
  ianaId : Option String
  dnssec : Dnssec
deriving DecidableEq, Repr

/-- Shared-field projection from an A-shaped result. -/
def sharedFieldsA (r : RdapResultA) : Shared NsEntry :=
  ⟨r.domain, r.handle, r.status, r.events, r.nameservers, r.registrar, r.ianaId, r.dnssec⟩

/-- Shared-field projection from a B-shaped result. -/
def sharedFieldsB (r : RdapResultB) : Shared String :=
  ⟨r.domain, r.handle, r.status, r.events, r.nameservers, r.registrar, r.ianaId, r.dnssec⟩

/-! ## Theorems -/

/-- C2: for every candidate endpoint list, the tie-break selects the
first candidate starting with https in original list order whenever at
least one exists, and that selection is an https URL; with no https
candidate it selects the first candidate in list order. -/
theorem chooseEndpoint_tiebreak (l : List String) :
    ((∃ e ∈ l, strStartsWith e "https://" = true) →
      chooseEndpoint l = l.find? (fun e => strStartsWith e "https://") ∧
      ∃ e, chooseEndpoint l = some e ∧ strStartsWith e "https://" = true) ∧
    ((∀ e ∈ l, strStartsWith e "https://" = false) →
      chooseEndpoint l = l.head?) := by
  constructor
  · intro h
    have hs : (l.find? (fun e => strStartsWith e "https://")).isSome := by
      rw [List.find?_isSome]
      obtain ⟨e, he, hp⟩ := h
      exact ⟨e, he, hp⟩
    obtain ⟨e0, he0⟩ := Option.isSome_iff_exists.mp hs
    have hp0 : strStartsWith e0 "https://" = true := (List.find?_eq_some.mp he0).1
    have hne : ¬ e0 = "" := by
      intro hh
      rw [hh] at hp0
      exact absurd hp0 (by decide)
    refine ⟨?_, e0, ?_, hp0⟩ <;>
      simp [chooseEndpoint, jsOrOpt, he0, hne]
  · intro h
    have hnone : l.find? (fun e => strStartsWith e "https://") = none := by
      rw [List.find?_eq_none]
      intro x hx
      simp [h x hx]
    simp [chooseEndpoint, jsOrOpt, hnone]

/-- Witness for C2 at concrete candidate lists: one with an https
candidate in second position, one with none at all. -/
theorem chooseEndpoint_tiebreak_witness :
    (chooseEndpoint ["http://a/", "https://b/", "https://c/"] =
       List.find? (fun e => strStartsWith e "https://")
         ["http://a/", "https://b/", "https://c/"] ∧
     ∃ e, chooseEndpoint ["http://a/", "https://b/", "https://c/"] = some e ∧
       strStartsWith e "https://" = true) ∧
    chooseEndpoint ["http://a/", "http://b/"] = ["http://a/", "http://b/"].head? :=
  ⟨(chooseEndpoint_tiebreak _).1 ⟨"https://b/", by decide, by decide⟩,
   (chooseEndpoint_tiebreak _).2 (by decide)⟩

/-- All four slot projections of one event-loop iteration. -/
theorem applyEvent_slots (fmt : String → String) (s : EventSlots) (e : RdapEvent) :
    (applyEvent fmt s e).registration =
      (if e.eventAction = "registration" then some (fmt e.eventDate)
       else s.registration) ∧
    (applyEvent fmt s e).expiration =
      (if e.eventAction = "expiration" then some (fmt e.eventDate)
       else s.expiration) ∧
    (applyEvent fmt s e).lastChanged =
      (if e.eventAction = "last changed" then some (fmt e.eventDate)
       else s.lastChanged) ∧
    (applyEvent fmt s e).lastUpdateOfRdapDatabase =
      (if e.eventAction = "last update of RDAP database" then some (fmt e.eventDate)
       else s.lastUpdateOfRdapDatabase) := by
  unfold applyEvent
  by_cases h1 : e.eventAction = "registration" <;>
    by_cases h2 : e.eventAction = "expiration" <;>
    by_cases h3 : e.eventAction = "last changed" <;>
    by_cases h4 : e.eventAction = "last update of RDAP database" <;>
    simp_all

/-- Folding the event loop from an arbitrary slot state: each slot ends
as the formatted date of the last event in list order whose action
matches that slot exactly, or keeps its starting value if none matches. -/
theorem foldl_applyEvent_slots (fmt : String → String) (events : List RdapEvent)
    (s : EventSlots) :
    (events.foldl (applyEvent fmt) s).registration =
      (((events.filter (fun e => e.eventAction == "registration")).getLast?).map
        (fun e => some (fmt e.eventDate))).getD s.registration ∧
    (events.foldl (applyEvent fmt) s).expiration =
      (((events.filter (fun e => e.eventAction == "expiration")).getLast?).map
        (fun e => some (fmt e.eventDate))).getD s.expiration ∧
    (events.foldl (applyEvent fmt) s).lastChanged =
      (((events.filter (fun e => e.eventAction == "last changed")).getLast?).map
        (fun e => some (fmt e.eventDate))).getD s.lastChanged ∧
    (events.foldl (applyEvent fmt) s).lastUpdateOfRdapDatabase =
      (((events.filter (fun e => e.eventAction == "last update of RDAP database")).getLast?).map
        (fun e => some (fmt e.eventDate))).getD s.lastUpdateOfRdapDatabase := by
  induction events generalizing s with
  | nil => simp
  | cons e es ih =>
    rw [List.foldl_cons]
    obtain ⟨ih1, ih2, ih3, ih4⟩ := ih (applyEvent fmt s e)
    obtain ⟨a1, a2, a3, a4⟩ := applyEvent_slots fmt s e
    refine ⟨?_, ?_, ?_, ?_⟩
    · rw [ih1, a1, List.filter_cons]
      by_cases h : e.eventAction = "registration"
      · rw [if_pos h, if_pos (show (e.eventAction == "registration") = true by simp [h]),
          List.getLast?_cons]
        cases (List.filter (fun e => e.eventAction == "registration") es).getLast? <;> rfl
      · rw [if_neg h, if_neg (show ¬(e.eventAction == "registration") = true by simp [h])]
    · rw [ih2, a2, List.filter_cons]
      by_cases h : e.eventAction = "expiration"
      · rw [if_pos h, if_pos (show (e.eventAction == "expiration") = true by simp [h]),
          List.getLast?_cons]
        cases (List.filter (fun e => e.eventAction == "expiration") es).getLast? <;> rfl
      · rw [if_neg h, if_neg (show ¬(e.eventAction == "expiration") = true by simp [h])]
    · rw [ih3, a3, List.filter_cons]
      by_cases h : e.eventAction = "last changed"
      · rw [if_pos h, if_pos (show (e.eventAction == "last changed") = true by simp [h]),
          List.getLast?_cons]
        cases (List.filter (fun e => e.eventAction == "last changed") es).getLast? <;> rfl
      · rw [if_neg h, if_neg (show ¬(e.eventAction == "last changed") = true by simp [h])]
    · rw [ih4, a4, List.filter_cons]
      by_cases h : e.eventAction = "last update of RDAP database"
      · rw [if_pos h,
          if_pos (show (e.eventAction == "last update of RDAP database") = true by simp [h]),
          List.getLast?_cons]
        cases (List.filter (fun e => e.eventAction == "last update of RDAP database") es).getLast? <;>
          rfl
      · rw [if_neg h,
          if_neg (show ¬(e.eventAction == "last update of RDAP database") = true by simp [h])]

/-- C3: each canonical date slot is determined by exact string match on
eventAction, every other action is ignored, and on duplicate matches the
last event in list order wins; in particular two expiration events yield
the second one. -/
theorem extractEvents_last_wins (fmt : String → String) (events : List RdapEvent) :
    (extractEvents fmt events).registration =
      ((events.filter (fun e => e.eventAction == "registration")).getLast?).map
        (fun e => fmt e.eventDate) ∧
    (extractEvents fmt events).expiration =
      ((events.filter (fun e => e.eventAction == "expiration")).getLast?).map
        (fun e => fmt e.eventDate) ∧
    (extractEvents fmt events).lastChanged =
      ((events.filter (fun e => e.eventAction == "last changed")).getLast?).map
        (fun e => fmt e.eventDate) ∧
    (extractEvents fmt events).lastUpdateOfRdapDatabase =
      ((events.filter (fun e => e.eventAction == "last update of RDAP database")).getLast?).map
        (fun e => fmt e.eventDate) ∧
    ∀ d1 d2, (extractEvents fmt [⟨"expiration", d1⟩, ⟨"expiration", d2⟩]).expiration =
      some (fmt d2) := by
  obtain ⟨h1, h2, h3, h4⟩ := foldl_applyEvent_slots fmt events ⟨none, none, none, none⟩
  refine ⟨?_, ?_, ?_, ?_, ?_⟩
  · rw [extractEvents, h1]
    cases (events.filter (fun e => e.eventAction == "registration")).getLast? <;> simp
  · rw [extractEvents, h2]
    cases (events.filter (fun e => e.eventAction == "expiration")).getLast? <;> simp
  · rw [extractEvents, h3]
    cases (events.filter (fun e => e.eventAction == "last changed")).getLast? <;> simp
  · rw [extractEvents, h4]
    cases (events.filter (fun e => e.eventAction == "last update of RDAP database")).getLast? <;>
      simp
  · intro d1 d2
    rfl



/-- Lookup after registering every TLD of one snapshot entry: a key is
bound to that entry's computed endpoint exactly when it equals one of the
lowercased labels, otherwise the previous map answers. -/
theorem setAll_lookup (ep : Option String) (tlds : List String)
    (m : String → Option (Option String)) (k : String) :
    setAll ep tlds m k =
      if tlds.any (fun t => strToLower t == k) then some ep else m k := by
  induction tlds generalizing m with
  | nil => simp [setAll]
  | cons t ts ih =>
    have step : setAll ep (t :: ts) m =
        setAll ep ts (fun k => if k = strToLower t then some ep else m k) := rfl
    rw [step, ih]
    by_cases h1 : ts.any (fun t => strToLower t == k)
    · simp [h1]
    · by_cases h2 : k = strToLower t
      · simp [h1, h2]
      · have h2x : ¬(strToLower t == k) = true := by
          simp only [beq_iff_eq]
          intro hh
          exact h2 hh.symm
        simp [h1, h2, h2x]

/-- C8: the bootstrap index built by document-order insertion answers a
key with the computed endpoint of the last snapshot entry containing
that key among its lowercased TLD labels (last write wins); every label
of one entry shares the one endpoint computed per entry. -/
theorem loadBootstrap_last_write_wins (services : List Service) (k : String) :
    loadBootstrap services k =
      ((services.filter (fun svc => svc.tlds.any (fun t => strToLower t == k))).getLast?).map
        (fun svc => chooseEndpoint svc.endpoints) := by
  suffices h : ∀ (m : String → Option (Option String)),
      (services.foldl (fun m svc => setAll (chooseEndpoint svc.endpoints) svc.tlds m) m) k =
        match (services.filter (fun svc => svc.tlds.any (fun t => strToLower t == k))).getLast? with
        | some svc => some (chooseEndpoint svc.endpoints)
        | none => m k by
    rw [loadBootstrap, h]
    cases (services.filter (fun svc => svc.tlds.any (fun t => strToLower t == k))).getLast? <;> rfl
  induction services with
  | nil => intro m; rfl
  | cons svc rest ih =>
    intro m
    rw [List.foldl_cons, ih, setAll_lookup, List.filter_cons]
    by_cases h : (svc.tlds.any fun t => strToLower t == k) = true
    · rw [if_pos h, if_pos h, List.getLast?_cons]
      cases (List.filter (fun svc => svc.tlds.any fun t => strToLower t == k) rest).getLast? <;> rfl
    · rw [if_neg h, if_neg h]

/-- find? over a list whose first registrar-role entity is e1 returns e1. -/
theorem find?_registrar_split (pre post : List RdapEntity) (e1 : RdapEntity)
    (hpre : ∀ e ∈ pre, hasRegistrarRole e = false)
    (he1 : hasRegistrarRole e1 = true) :
    (pre ++ e1 :: post).find? hasRegistrarRole = some e1 := by
  rw [List.find?_append]
  have h1 : pre.find? hasRegistrarRole = none := by
    rw [List.find?_eq_none]
    intro x hx
    simp [hpre x hx]
  rw [h1, List.find?_cons_of_pos _ he1]
  rfl

/-- C4 as amended: both registrar fields are read from the first entity
whose role set contains registrar, entities after it are never consulted;
the registrar name is the first fn vCard entry value when it is a single
string; the IANA ID is the first matching public identifier value passed
through `|| null`, so an empty identifier string degrades to absent. -/
theorem registrar_fields_first_entity (pre post : List RdapEntity) (e1 : RdapEntity)
    (hpre : ∀ e ∈ pre, hasRegistrarRole e = false)
    (he1 : hasRegistrarRole e1 = true) :
    extractRegistrar (some (pre ++ e1 :: post)) = claimFnOf e1 ∧
    extractIanaId (some (pre ++ e1 :: post)) = jsOrNull (claimIanaIdOf e1) := by
  obtain ⟨r1, p1, v1⟩ := e1
  have hfind := find?_registrar_split pre post ⟨r1, p1, v1⟩ hpre he1
  constructor
  · rw [extractRegistrar, hfind, claimFnOf]
  · rw [extractIanaId, hfind, claimIanaIdOf]
    cases p1 <;> rfl

/-- Witness for C4 as amended: a non-registrar entity first, then the
registrar entity, then a second registrar entity that must be ignored. -/
theorem registrar_fields_first_entity_witness :
    extractRegistrar (some
      ([⟨some ["technical"], none, none⟩] ++
        ⟨some ["registrar"], some [⟨"IANA Registrar ID", "146"⟩],
          some ("vcard", [⟨"version", [], "text", .str "4.0"⟩,
            ⟨"fn", [], "text", .str "GoDaddy.com, LLC"⟩])⟩ ::
        [⟨some ["registrar"], some [⟨"IANA Registrar ID", "999"⟩],
          some ("vcard", [⟨"fn", [], "text", .str "Ignored Registrar"⟩])⟩])) =
      claimFnOf
        ⟨some ["registrar"], some [⟨"IANA Registrar ID", "146"⟩],
          some ("vcard", [⟨"version", [], "text", .str "4.0"⟩,
            ⟨"fn", [], "text", .str "GoDaddy.com, LLC"⟩])⟩ ∧
    extractIanaId (some
      ([⟨some ["technical"], none, none⟩] ++
        ⟨some ["registrar"], some [⟨"IANA Registrar ID", "146"⟩],
          some ("vcard", [⟨"version", [], "text", .str "4.0"⟩,
            ⟨"fn", [], "text", .str "GoDaddy.com, LLC"⟩])⟩ ::
        [⟨some ["registrar"], some [⟨"IANA Registrar ID", "999"⟩],
          some ("vcard", [⟨"fn", [], "text", .str "Ignored Registrar"⟩])⟩])) =
      jsOrNull (claimIanaIdOf
        ⟨some ["registrar"], some [⟨"IANA Registrar ID", "146"⟩],
          some ("vcard", [⟨"version", [], "text", .str "4.0"⟩,
            ⟨"fn", [], "text", .str "GoDaddy.com, LLC"⟩])⟩) :=
  registrar_fields_first_entity
    [⟨some ["technical"], none, none⟩]
    [⟨some ["registrar"], some [⟨"IANA Registrar ID", "999"⟩],
      some ("vcard", [⟨"fn", [], "text", .str "Ignored Registrar"⟩])⟩]
    ⟨some ["registrar"], some [⟨"IANA Registrar ID", "146"⟩],
      some ("vcard", [⟨"version", [], "text", .str "4.0"⟩,
        ⟨"fn", [], "text", .str "GoDaddy.com, LLC"⟩])⟩
    (by decide) (by decide)

/-- Counterexample to C4 as frozen: a registrar entity whose first
matching public identifier has the empty string as its value; the claim
says the ID is that value (present, empty), but the code returns absent
because the empty string is falsy in `ianaId?.identifier || null`. -/
theorem extractIanaId_empty_identifier_cex :
    claimIanaIdOf ⟨some ["registrar"], some [⟨"IANA Registrar ID", ""⟩], none⟩ =
      some "" ∧
    extractIanaId (some [⟨some ["registrar"], some [⟨"IANA Registrar ID", ""⟩], none⟩]) =
      none ∧
    extractIanaId (some [⟨some ["registrar"], some [⟨"IANA Registrar ID", ""⟩], none⟩]) ≠
      claimIanaIdOf ⟨some ["registrar"], some [⟨"IANA Registrar ID", ""⟩], none⟩ := by
  refine ⟨rfl, rfl, ?_⟩
  decide

/-- C5: normalization is a total Lean function by construction, and every
missing optional field or sub-field degrades to its documented absent
representation: null registrar fields and handle, empty status,
nameserver and dsRecords lists, all-null date slots, signed false; a
registrar entity without vcardArray or publicIds likewise degrades, and
nameservers without ipAddresses get empty address lists. -/
theorem normalizeA_defaults (fmt : String → String) (ep : String) (t : Nat)
    (data : RdapResponse) :
    (data.entities = none →
      (normalizeA fmt ep t data).registrar = none ∧
      (normalizeA fmt ep t data).ianaId = none) ∧
    (data.handle = none → (normalizeA fmt ep t data).handle = none) ∧
    (data.status = none → (normalizeA fmt ep t data).status = []) ∧
    (data.events = none →
      (normalizeA fmt ep t data).events = ⟨none, none, none, none⟩) ∧
    (data.nameservers = none → (normalizeA fmt ep t data).nameservers = []) ∧
    (data.secureDNS = none → (normalizeA fmt ep t data).dnssec = ⟨false, []⟩) ∧
    (∀ l, data.nameservers = some l → (∀ ns ∈ l, ns.ipAddresses = none) →
      (normalizeA fmt ep t data).nameservers =
        l.map (fun ns => ⟨ns.ldhName, [], []⟩)) ∧
    (∀ es e, data.entities = some es → es.find? hasRegistrarRole = some e →
      (e.vcardArray = none → (normalizeA fmt ep t data).registrar = none) ∧
      (e.publicIds = none → (normalizeA fmt ep t data).ianaId = none)) := by
  refine ⟨?_, ?_, ?_, ?_, ?_, ?_, ?_, ?_⟩
  · intro h
    constructor <;> simp [normalizeA, extractRegistrar, extractIanaId, h]
  · intro h
    simp [normalizeA, jsOrNull, jsOrOpt, h]
  · intro h
    simp [normalizeA, h]
  · intro h
    simp [normalizeA, h, extractEvents]
  · intro h
    simp [normalizeA, h]
  · intro h
    simp [normalizeA, h]
  · intro l hl hip
    simp only [normalizeA, hl, Option.getD_some]
    refine List.map_congr_left (fun ns hns => ?_)
    rw [hip ns hns]
    rfl
  · intro es e hes hfind
    constructor <;> intro h <;>
      simp [normalizeA, extractRegistrar, extractIanaId, hes, hfind, h]

/-- Witness for C5 at concrete raw objects: one with every optional field
absent, one with a nameserver lacking ipAddresses, one whose registrar
entity lacks both vcardArray and publicIds. -/
theorem normalizeA_defaults_witness :
    ((normalizeA (fun s => s) "https://e/" 3
        ⟨"example.com", none, none, none, none, none, none, none⟩).registrar = none ∧
     (normalizeA (fun s => s) "https://e/" 3
        ⟨"example.com", none, none, none, none, none, none, none⟩).ianaId = none) ∧
    (normalizeA (fun s => s) "https://e/" 3
        ⟨"example.com", none, none, none, none, none, none, none⟩).handle = none ∧
    (normalizeA (fun s => s) "https://e/" 3
        ⟨"example.com", none, none, none, none, none, none, none⟩).status = [] ∧
    (normalizeA (fun s => s) "https://e/" 3
        ⟨"example.com", none, none, none, none, none, none, none⟩).events =
      ⟨none, none, none, none⟩ ∧
    (normalizeA (fun s => s) "https://e/" 3
        ⟨"example.com", none, none, none, none, none, none, none⟩).nameservers = [] ∧
    (normalizeA (fun s => s) "https://e/" 3
        ⟨"example.com", none, none, none, none, none, none, none⟩).dnssec =
      ⟨false, []⟩ ∧
    (normalizeA (fun s => s) "https://e/" 3
        ⟨"example.com", none, none, none,
          some [⟨"ns1.example.com", "nameserver", none⟩], none, none, none⟩).nameservers =
      [⟨"ns1.example.com", [], []⟩] ∧
    (normalizeA (fun s => s) "https://e/" 3
        ⟨"example.com", none, none, none, none,
          some [⟨some ["registrar"], none, none⟩], none, none⟩).registrar = none ∧
    (normalizeA (fun s => s) "https://e/" 3
        ⟨"example.com", none, none, none, none,
          some [⟨some ["registrar"], none, none⟩], none, none⟩).ianaId = none :=
  ⟨(normalizeA_defaults _ _ _ _).1 rfl,
   (normalizeA_defaults _ _ _ _).2.1 rfl,
   (normalizeA_defaults _ _ _ _).2.2.1 rfl,
   (normalizeA_defaults _ _ _ _).2.2.2.1 rfl,
   (normalizeA_defaults _ _ _ _).2.2.2.2.1 rfl,
   (normalizeA_defaults _ _ _ _).2.2.2.2.2.1 rfl,
   (normalizeA_defaults _ _ _ _).2.2.2.2.2.2.1
     [⟨"ns1.example.com", "nameserver", none⟩] rfl (by decide),
   ((normalizeA_defaults _ _ _ _).2.2.2.2.2.2.2
     [⟨some ["registrar"], none, none⟩] ⟨some ["registrar"], none, none⟩ rfl rfl).1 rfl,
   ((normalizeA_defaults _ _ _ _).2.2.2.2.2.2.2
     [⟨some ["registrar"], none, none⟩] ⟨some ["registrar"], none, none⟩ rfl rfl).2 rfl⟩

/-- C7: the canonical result preserves the raw status list verbatim and
in order (empty when absent), the dsRecords verbatim (empty when absent),
the nameserver list length and order of names, and retains the full raw
object unmodified. -/
theorem normalizeA_preserves (fmt : String → String) (ep : String) (t : Nat)
    (data : RdapResponse) :
    (normalizeA fmt ep t data).rawResponse = data ∧
    (∀ l, data.status = some l → (normalizeA fmt ep t data).status = l) ∧
    (data.status = none → (normalizeA fmt ep t data).status = []) ∧
    (∀ sd ds, data.secureDNS = some sd → sd.dsData = some ds →
      (normalizeA fmt ep t data).dnssec.dsData = ds) ∧
    (data.secureDNS.bind SecureDns.dsData = none →
      (normalizeA fmt ep t data).dnssec.dsData = []) ∧
    (normalizeA fmt ep t data).nameservers.length =
      (data.nameservers.getD []).length ∧
    (normalizeA fmt ep t data).nameservers.map NsEntry.name =
      (data.nameservers.getD []).map RdapNameserver.ldhName := by
  refine ⟨rfl, ?_, ?_, ?_, ?_, ?_, ?_⟩
  · intro l h
    simp [normalizeA, h]
  · intro h
    simp [normalizeA, h]
  · intro sd ds h1 h2
    simp [normalizeA, h1, h2]
  · intro h
    simp [normalizeA, h]
  · simp [normalizeA]
  · simp [normalizeA, List.map_map]

/-- Witness for C7 at a concrete raw object carrying status strings, DS
records and two nameservers. -/
theorem normalizeA_preserves_witness :
    (normalizeA (fun s => s) "https://e/" 9
        ⟨"example.com", some "H1", some ["active", "clientTransferProhibited"], none,
          some [⟨"ns2.example.com", "nameserver", none⟩,
                ⟨"ns1.example.com", "nameserver", none⟩],
          none, some ⟨some true, some [⟨12345, 8, 2, "ABCDEF"⟩]⟩, none⟩).status =
      ["active", "clientTransferProhibited"] ∧
    (normalizeA (fun s => s) "https://e/" 9
        ⟨"example.com", some "H1", some ["active", "clientTransferProhibited"], none,
          some [⟨"ns2.example.com", "nameserver", none⟩,
                ⟨"ns1.example.com", "nameserver", none⟩],
          none, some ⟨some true, some [⟨12345, 8, 2, "ABCDEF"⟩]⟩, none⟩).dnssec.dsData =
      [⟨12345, 8, 2, "ABCDEF"⟩] :=
  ⟨(normalizeA_preserves _ _ _ _).2.1 ["active", "clientTransferProhibited"] rfl,
   (normalizeA_preserves _ _ _ _).2.2.2.1 ⟨some true, some [⟨12345, 8, 2, "ABCDEF"⟩]⟩
     [⟨12345, 8, 2, "ABCDEF"⟩] rfl rfl⟩

/-- C9 as amended: for every raw object the two routes agree exactly on
domain name, handle, status list, event date slots, registrar name, IANA
ID, DNSSEC data and the retained raw object, and on nameserver names in
order; they diverge on the nameserver entries themselves, where only the
bootstrap route surfaces per-nameserver IP address lists. -/
theorem normalize_routes_agree (fmt : String → String) (ep : String) (t : Nat)
    (data : RdapResponse) :
    (normalizeB fmt t data).domain = (normalizeA fmt ep t data).domain ∧
    (normalizeB fmt t data).handle = (normalizeA fmt ep t data).handle ∧
    (normalizeB fmt t data).status = (normalizeA fmt ep t data).status ∧
    (normalizeB fmt t data).events = (normalizeA fmt ep t data).events ∧
    (normalizeB fmt t data).registrar = (normalizeA fmt ep t data).registrar ∧
    (normalizeB fmt t data).ianaId = (normalizeA fmt ep t data).ianaId ∧
    (normalizeB fmt t data).dnssec = (normalizeA fmt ep t data).dnssec ∧
    (normalizeB fmt t data).rawResponse = (normalizeA fmt ep t data).rawResponse ∧
    (normalizeB fmt t data).nameservers =
      (normalizeA fmt ep t data).nameservers.map NsEntry.name := by
  refine ⟨rfl, rfl, rfl, rfl, rfl, rfl, rfl, rfl, ?_⟩
  simp [normalizeA, normalizeB, List.map_map]

/-- Counterexample to C9 as frozen: two raw objects differing only in a
nameserver's ipAddresses produce different bootstrap-route outputs on the
shared normalized fields while the Verisign-route outputs coincide, so
the two normalizations cannot be identical on the nameservers field. -/
theorem normalize_routes_nameserver_cex :
    sharedFieldsB (normalizeB (fun s => s) 0
      ⟨"example.com", none, none, none,
        some [⟨"ns1.example.com", "nameserver", some ⟨some ["192.0.2.1"], none⟩⟩],
        none, none, none⟩) =
    sharedFieldsB (normalizeB (fun s => s) 0
      ⟨"example.com", none, none, none,
        some [⟨"ns1.example.com", "nameserver", none⟩],
        none, none, none⟩) ∧
    sharedFieldsA (normalizeA (fun s => s) "https://e/" 0
      ⟨"example.com", none, none, none,
        some [⟨"ns1.example.com", "nameserver", some ⟨some ["192.0.2.1"], none⟩⟩],
        none, none, none⟩) ≠
    sharedFieldsA (normalizeA (fun s => s) "https://e/" 0
      ⟨"example.com", none, none, none,
        some [⟨"ns1.example.com", "nameserver", none⟩],
        none, none, none⟩) := by
  refine ⟨rfl, ?_⟩
  decide

/-- C1 as amended: after an attempted exchange the handler body reports a
404 as the not-found failure with queryTime and no data, any other
non-2xx status as a failure naming that status with queryTime, a 2xx
body-parse failure through the same catch clause as a transport failure
(same shape and message, not a distinct kind), a transport failure with
the thrown message and queryTime, and a 2xx parseable body as success. -/
theorem classifyA_outcomes (fmt : String → String) (domain endpoint : String) (t : Nat) :
    (∀ msg, classifyA fmt domain endpoint t (.fetchError msg) = .errorTimed msg t) ∧
    (∀ body, classifyA fmt domain endpoint t (.response 404 body) =
      .errorTimed ("Domain \"" ++ domain ++ "\" not found in RDAP registry") t) ∧
    (∀ status body, status ≠ 404 → responseOk status = false →
      classifyA fmt domain endpoint t (.response status body) =
        .errorTimed ("RDAP lookup failed with status " ++ toString status) t) ∧
    (∀ status msg, responseOk status = true →
      classifyA fmt domain endpoint t (.response status (.parseError msg)) =
        classifyA fmt domain endpoint t (.fetchError msg)) ∧
    (∀ status data, responseOk status = true →
      classifyA fmt domain endpoint t (.response status (.parsed data)) =
        .ok (normalizeA fmt endpoint t data)) := by
  have h404 : ∀ status, responseOk status = true → status ≠ 404 := by
    intro status h heq
    rw [heq] at h
    exact absurd h (by decide)
  refine ⟨fun msg => rfl, fun body => by simp [classifyA], ?_, ?_, ?_⟩
  · intro status body h1 h2
    simp [classifyA, h1, h2]
  · intro status msg h
    simp [classifyA, h404 status h, h]
  · intro status data h
    simp [classifyA, h404 status h, h]

/-- Witness for C1 as amended: a 500 upstream error, a parse failure on a
200 response equal to the transport outcome, and a parsed 200 success. -/
theorem classifyA_outcomes_witness :
    classifyA (fun s => s) "example.com" "https://e/" 7 (.response 500 (.parseError "x")) =
      .errorTimed ("RDAP lookup failed with status " ++ toString 500) 7 ∧
    classifyA (fun s => s) "example.com" "https://e/" 7 (.response 200 (.parseError "boom")) =
      classifyA (fun s => s) "example.com" "https://e/" 7 (.fetchError "boom") ∧
    classifyA (fun s => s) "example.com" "https://e/" 7
        (.response 200 (.parsed ⟨"example.com", none, none, none, none, none, none, none⟩)) =
      .ok (normalizeA (fun s => s) "https://e/" 7
        ⟨"example.com", none, none, none, none, none, none, none⟩) :=
  ⟨(classifyA_outcomes (fun s => s) "example.com" "https://e/" 7).2.2.1 500
      (.parseError "x") (by decide) (by decide),
   (classifyA_outcomes (fun s => s) "example.com" "https://e/" 7).2.2.2.1 200 "boom"
      (by decide),
   (classifyA_outcomes (fun s => s) "example.com" "https://e/" 7).2.2.2.2 200
      ⟨"example.com", none, none, none, none, none, none, none⟩ (by decide)⟩

/-- Counterexample to C1 as frozen: on a 2xx response with an unparseable
body the handler produces a failure byte-identical to the one for a
transport failure carrying the same thrown message, so the parse-failure
outcome is not a kind machine-distinguishable from TransportError. -/
theorem classifyA_parse_equals_transport_cex :
    classifyA (fun s => s) "example.com" "https://rdap.example/" 5
        (.response 200 (.parseError "connection reset")) =
      classifyA (fun s => s) "example.com" "https://rdap.example/" 5
        (.fetchError "connection reset") := rfl

/-- C6: an empty (or missing) domain parameter after trim/lowercase, or
one failing the label-syntax regex, is rejected before any network call
with the corresponding client-input error; a syntactically valid domain
whose TLD resolves to no endpoint is rejected naming that TLD, likewise
with zero outbound requests. -/
theorem handlerA_rejects_before_network (fmt : String → String)
    (services : List Service) (oracle : GetRequest → FetchOutcome) (t : Nat)
    (domainParam : Option String) :
    (strToLower (strTrim (domainParam.getD "")) = "" →
      handlerA fmt services domainParam oracle t =
        (⟨400, .errorOnly "Domain parameter is required"⟩, [])) ∧
    (strToLower (strTrim (domainParam.getD "")) ≠ "" →
      validDomain (strToLower (strTrim (domainParam.getD ""))) = false →
      handlerA fmt services domainParam oracle t =
        (⟨400, .errorOnly "Invalid domain format"⟩, [])) ∧
    (∀ tld, validDomain (strToLower (strTrim (domainParam.getD ""))) = true →
      getTld (strToLower (strTrim (domainParam.getD ""))) = some tld →
      getRdapUrl services (strToLower (strTrim (domainParam.getD ""))) = none →
      handlerA fmt services domainParam oracle t =
        (⟨400, .errorOnly ("TLD \"." ++ tld ++
          "\" is not supported. No RDAP endpoint found in IANA bootstrap registry.")⟩,
         [])) ∧
    (∀ tld, getTld (strToLower (strTrim (domainParam.getD ""))) = some tld →
      loadBootstrap services tld = none →
      getRdapUrl services (strToLower (strTrim (domainParam.getD ""))) = none) := by
  refine ⟨?_, ?_, ?_, ?_⟩
  · intro h
    simp [handlerA, h]
  · intro h1 h2
    simp [handlerA, h1, h2]
  · intro tld h1 h2 h3
    have h0 : strToLower (strTrim (domainParam.getD "")) ≠ "" := by
      intro hh
      rw [hh] at h1
      exact absurd h1 (by decide)
    simp [handlerA, h0, h1, h3, unsupportedMsgA, h2]
  · intro tld h2 h3
    simp [getRdapUrl, h2, h3]

/-- Witness for C6: a whitespace-only parameter, a parameter with an
inner space, and a well-formed domain whose TLD is absent from a
one-entry bootstrap snapshot; all three return 400 with no request. -/
theorem handlerA_rejects_before_network_witness :
    handlerA (fun s => s) [⟨["com"], ["https://y/"]⟩] (some "   ")
        (fun _ => .fetchError "x") 5 =
      (⟨400, .errorOnly "Domain parameter is required"⟩, []) ∧
    handlerA (fun s => s) [⟨["com"], ["https://y/"]⟩] (some "not a domain")
        (fun _ => .fetchError "x") 5 =
      (⟨400, .errorOnly "Invalid domain format"⟩, []) ∧
    handlerA (fun s => s) [⟨["com"], ["https://y/"]⟩] (some " EXAMPLE.ZZ ")
        (fun _ => .fetchError "x") 5 =
      (⟨400, .errorOnly ("TLD \"." ++ "zz" ++
        "\" is not supported. No RDAP endpoint found in IANA bootstrap registry.")⟩,
       []) ∧
    getRdapUrl [⟨["com"], ["https://y/"]⟩]
      (strToLower (strTrim ((some " EXAMPLE.ZZ ").getD ""))) = none :=
  ⟨(handlerA_rejects_before_network (fun s => s) [⟨["com"], ["https://y/"]⟩]
      (fun _ => .fetchError "x") 5 (some "   ")).1 (by decide),
   (handlerA_rejects_before_network (fun s => s) [⟨["com"], ["https://y/"]⟩]
      (fun _ => .fetchError "x") 5 (some "not a domain")).2.1 (by decide) (by decide),
   (handlerA_rejects_before_network (fun s => s) [⟨["com"], ["https://y/"]⟩]
      (fun _ => .fetchError "x") 5 (some " EXAMPLE.ZZ ")).2.2.1 "zz" (by decide) (by decide)
      (by decide),
   (handlerA_rejects_before_network (fun s => s) [⟨["com"], ["https://y/"]⟩]
      (fun _ => .fetchError "x") 5 (some " EXAMPLE.ZZ ")).2.2.2 "zz" (by decide) (by decide)⟩

/-- C10: for both route handlers and every input, the HTTP status is
either 400 or 200, and it is 400 exactly when no outbound request was
made, i.e. exactly on the three preflight rejections; every post-fetch
outcome is served with status 200. -/
theorem handler_status_partition (fmt : String → String) (services : List Service)
    (domainParam : Option String) (oracle : GetRequest → FetchOutcome) (t : Nat) :
    (((handlerA fmt services domainParam oracle t).1.httpStatus = 400 ∨
      (handlerA fmt services domainParam oracle t).1.httpStatus = 200) ∧
     ((handlerA fmt services domainParam oracle t).1.httpStatus = 400 ↔
      (handlerA fmt services domainParam oracle t).2 = [])) ∧
    (((handlerB fmt domainParam oracle t).1.httpStatus = 400 ∨
      (handlerB fmt domainParam oracle t).1.httpStatus = 200) ∧
     ((handlerB fmt domainParam oracle t).1.httpStatus = 400 ↔
      (handlerB fmt domainParam oracle t).2 = [])) := by
  constructor
  · by_cases h1 : strToLower (strTrim (domainParam.getD "")) = ""
    · simp [handlerA, h1]
    · by_cases h2 : validDomain (strToLower (strTrim (domainParam.getD ""))) = true
      · cases h3 : getRdapUrl services (strToLower (strTrim (domainParam.getD ""))) with
        | none => simp [handlerA, h1, h2, h3]
        | some pair => simp [handlerA, h1, h2, h3]
      · simp [handlerA, h1, h2]
  · by_cases h1 : strToLower (strTrim (domainParam.getD "")) = ""
    · simp [handlerB, h1]
    · by_cases h2 : validDomain (strToLower (strTrim (domainParam.getD ""))) = true
      · cases h3 : getRdapUrlB (strToLower (strTrim (domainParam.getD ""))) with
        | none => simp [handlerB, h1, h2, h3]
        | some u => simp [handlerB, h1, h2, h3]
      · simp [handlerB, h1, h2]
